import Mathlib

/-!
Verification of the pomdot terminal timer (`pomdot.py`) against its
natural-language specification.  The Python source is shallowly embedded:
pure helper functions become Lean functions over `Nat` / `Int` / `List Char`,
fallible code returns `Except`, and the `main` control flow is modelled as a
pure function from parsed arguments and an abstract config-file state to an
outcome value.  Python string operations (`strip`, `lower`, `split`) are
modelled by structural functions over character lists, and Python float
arithmetic (IEEE binary64, round-to-nearest-even) is modelled exactly by
integer computations, so that every definition is executable.
-/

set_option maxRecDepth 100000

deriving instance DecidableEq for Except

namespace Pomdot

/-! ## Constants (module-level constants of pomdot.py) -/

def DEFAULT_BAR_WIDTH : Nat := 30

def MIN_BAR_WIDTH : Nat := 10

def BUILTIN_DEFAULT_TIME : List String := ["30", "5", "0"]

def BUILTIN_DEFAULT_COMPACT : Bool := false

def BUILTIN_DEFAULT_NO_BELL : Bool := false

/-! ## Python string primitives, modelled over character lists -/

/-- Python `str.strip()` on a character list: drop whitespace from both ends. -/
def pyStrip (cs : List Char) : List Char :=
  ((cs.dropWhile Char.isWhitespace).reverse.dropWhile Char.isWhitespace).reverse

/-- Python `str.lower()` on a character list. -/
def pyLower (cs : List Char) : List Char :=
  cs.map Char.toLower

/-- Python `str.strip()` as a `String → String` function. -/
def pyStripS (s : String) : String :=
  ⟨pyStrip s.data⟩

/-- Numeric value of a decimal digit string, as computed by Python `int(text)`
on a string of digits. -/
def natOfDigits (ds : List Char) : Nat :=
  ds.foldl (fun n c => n * 10 + (c.toNat - 48)) 0

/-- Python `text.split(",")` on a character list. -/
def splitComma : List Char → List (List Char)
  | [] => [[]]
  | c :: rest =>
    let r := splitComma rest
    if c = ',' then [] :: r
    else
      match r with
      | [] => [[c]]
      | g :: gs => (c :: g) :: gs

/-! ## Duration/value parsers (`parse_duration`, `parse_repeat`, `parse_bar_width`) -/

def timeInvalidMsg : String :=
  "invalid time format. Use N, Ns, or Nm (examples: 25, 25m, 1500s)."

def timeNonPositiveMsg : String :=
  "time must be greater than zero."

/-- The regex match `re.fullmatch(r"(\d+)([sm]?)", text)` of `parse_duration`:
returns the digit group and the optional unit character, `none` when the text
does not match. -/
def durationGroups (cs : List Char) : Option (List Char × Option Char) :=
  let digits := cs.takeWhile Char.isDigit
  let rest := cs.dropWhile Char.isDigit
  if digits.isEmpty then none
  else
    match rest with
    | [] => some (digits, none)
    | [c] => if c = 's' ∨ c = 'm' then some (digits, some c) else none
    | _ => none

/-- `parse_duration` of pomdot.py: strip and lowercase the input, match
`(\d+)([sm]?)`, reject a zero amount, convert minutes (the default unit) to
seconds. -/
def parse_duration (value : String) : Except String Nat :=
  match durationGroups (pyLower (pyStrip value.data)) with
  | none => Except.error timeInvalidMsg
  | some (digits, unitOpt) =>
    let amount := natOfDigits digits
    let unit := unitOpt.getD 'm'
    if amount ≤ 0 then Except.error timeNonPositiveMsg
    else if unit = 'm' then Except.ok (amount * 60)
    else Except.ok amount

/-- The property of matching the regex `^\d+[sm]?$`: a non-empty digit
group followed by an optional unit suffix. -/
def durMatches (cs : List Char) : Prop :=
  ∃ ds us, ds ≠ [] ∧ (∀ c ∈ ds, c.isDigit = true) ∧
    (us = [] ∨ us = ['s'] ∨ us = ['m']) ∧ cs = ds ++ us

def repeatInvalidMsg : String :=
  "repeat count must be a non-negative integer."

def repeatNegativeMsg : String :=
  "repeat count must be zero or greater."

/-- `parse_repeat` of pomdot.py.  The parsed value is modelled as `Int`
(Python's unbounded `int`), so the `repeats < 0` guard of the source is kept
as a genuine runtime check. -/
def parse_repeat (value : String) : Except String Int :=
  let cs := pyStrip value.data
  if cs.isEmpty ∨ ¬ (cs.all Char.isDigit) then Except.error repeatInvalidMsg
  else
    let repeats : Int := (natOfDigits cs : Int)
    if repeats < 0 then Except.error repeatNegativeMsg
    else Except.ok repeats

def barWidthInvalidMsg : String :=
  "bar width must be an integer."

def barWidthMinMsg : String :=
  "bar width must be at least " ++ toString MIN_BAR_WIDTH ++ "."

/-- `parse_bar_width` of pomdot.py. -/
def parse_bar_width (value : String) : Except String Nat :=
  let cs := pyStrip value.data
  if cs.isEmpty ∨ ¬ (cs.all Char.isDigit) then Except.error barWidthInvalidMsg
  else
    let width := natOfDigits cs
    if width < MIN_BAR_WIDTH then Except.error barWidthMinMsg
    else Except.ok width

/-! ## IEEE binary64 model and progress bar (`build_bar`)

The source computes `filled = int((remaining / total) * width)` with Python
floats.  Python floats are IEEE binary64 with correct rounding
(round-to-nearest, ties-to-even): `int / int` is the correctly rounded
double of the exact quotient, `float * int` converts the int to the nearest
double and multiplies with one more correct rounding, and `int(x)`
truncates toward zero.  All values produced here are non-negative, so the
model covers non-negative floats only.  CPython raises `OverflowError`
where a conversion or quotient would reach `2^1024` (modelled as `inf`,
excluded by hypothesis in the theorems), which is unreachable for sane
timer inputs. -/

/-- Fuel-based floor of the binary logarithm (fuel `n` suffices for `n`). -/
def log2Aux : Nat → Nat → Nat
  | 0, _ => 0
  | fuel + 1, n => if n ≤ 1 then 0 else log2Aux fuel (n / 2) + 1

def natLog2 (n : Nat) : Nat := log2Aux n n

/-- A non-negative Python float: a finite IEEE binary64 value `m * 2^e` (as
produced by rounding, so representable), or infinity. -/
inductive PyFloat where
  | finite (m : Nat) (e : Int)
  | inf
  deriving DecidableEq

/-- Round `p / q` (with `q > 0`) to the nearest integer, ties to even: the
rounding step of IEEE round-to-nearest-even. -/
def roundSig (p q : Nat) : Nat :=
  let n := p / q
  let r := p % q
  if 2 * r < q then n
  else if 2 * r > q then n + 1
  else if n % 2 = 0 then n else n + 1

/-- Floor of the binary logarithm of `a / b` for `a, b ≥ 1`. -/
def floatExp (a b : Nat) : Int :=
  let e0 : Int := (natLog2 a : Int) - (natLog2 b : Int)
  if b * 2 ^ (max 0 e0).toNat ≤ a * 2 ^ (max 0 (-e0)).toNat then e0 else e0 - 1

/-- Round the exact rational `a / b` to the nearest IEEE binary64 value
(ties to even, subnormals and overflow included): the semantics of
CPython's `int / int` true division and of int-to-float conversion. -/
def roundRat (a b : Nat) : PyFloat :=
  if b = 0 then .inf
  else if a = 0 then .finite 0 0
  else
    let e := floatExp a b
    if e < -1022 then
      .finite (roundSig (a * 2 ^ 1074) b) (-1074)
    else
      let shift : Int := 52 - e
      let p := a * 2 ^ (max 0 shift).toNat
      let q := b * 2 ^ (max 0 (-shift)).toNat
      let m := roundSig p q
      if m = 2 ^ 53 then
        if e + 1 > 1023 then .inf else .finite (2 ^ 52) (e + 1 - 52)
      else
        if e > 1023 then .inf else .finite m (e - 52)

/-- IEEE binary64 multiplication of non-negative values: exact product,
then one correct rounding. -/
def pyMul : PyFloat → PyFloat → PyFloat
  | .finite m1 e1, .finite m2 e2 =>
    let M := m1 * m2
    let E := e1 + e2
    roundRat (M * 2 ^ (max 0 E).toNat) (2 ^ (max 0 (-E)).toNat)
  | _, _ => .inf

/-- Python `float(n)` for a natural number. -/
def pyFloatOfNat (n : Nat) : PyFloat := roundRat n 1

/-- Python `int(x)` for a non-negative float: truncation toward zero.
(`int(inf)` raises in Python; the `inf` case is excluded by hypothesis in
the theorems below.) -/
def pyTruncToNat : PyFloat → Nat
  | .finite m e => if 0 ≤ e then m * 2 ^ e.toNat else m / 2 ^ (-e).toNat
  | .inf => 0

/-- `build_bar` of pomdot.py: `ratio = remaining / total if total else 0`
in Python float division, `filled = int(ratio * width)` in Python float
multiplication, each step correctly rounded IEEE binary64. -/
def build_bar (remaining total width : Nat) : String :=
  let ratio : PyFloat := if total ≠ 0 then roundRat remaining total else .finite 0 0
  let filled : Nat := pyTruncToNat (pyMul ratio (pyFloatOfNat width))
  "[" ++ ⟨List.replicate filled '#'⟩ ++ ⟨List.replicate (width - filled) '-'⟩ ++ "]"

/-! ## Stage sequence (main, lines 446-450) -/

/-- The stage list built by `main`: for `cycle` in `range(1, total_cycles+1)`
append a focus stage then a rest stage, where `total_cycles = repeats + 1`. -/
def buildStages (focus_seconds rest_seconds repeats : Nat) : List (String × Nat) :=
  let totalCycles := repeats + 1
  (List.range' 1 totalCycles).flatMap (fun cycle =>
    [("Focus " ++ toString cycle ++ "/" ++ toString totalCycles, focus_seconds),
     ("Rest " ++ toString cycle ++ "/" ++ toString totalCycles, rest_seconds)])

/-! ## Config store (`load_config`, lines 141-197) -/

/-- A parsed TOML value, as produced by `tomllib.load`. -/
inductive Toml where
  | str (s : String)
  | int (n : Int)
  | bool (b : Bool)
  | arr (items : List Toml)
  | table (entries : List (String × Toml))

/-- The state of the config file on disk: absent, present but not parseable
as TOML (`tomllib.TOMLDecodeError` with the given message), or parsed. -/
inductive ConfigFile where
  | absent
  | malformed (err : String)
  | parsed (data : Toml)

/-- Python dict lookup on the parsed table. -/
def tomlLookup (entries : List (String × Toml)) (key : String) : Option Toml :=
  (entries.find? (fun kv => kv.fst == key)).map Prod.snd

/-- A Python exception escaping `load_config`: the `ValueError`s it raises
itself, or the `argparse.ArgumentTypeError` that `parse_bar_width` raises
(which is *not* a `ValueError` and is therefore not caught by `main`). -/
inductive PyErr where
  | valueError (msg : String)
  | argTypeError (msg : String)
  deriving DecidableEq

/-- The validated config of `load_config`: each recognized key either absent
or present with its validated value. -/
structure Config where
  time : Option (List String)
  compact : Option Bool
  no_bell : Option Bool
  bar_width : Option Nat
  deriving DecidableEq

def allowedKeys : List String := ["time", "compact", "no_bell", "bar_width"]

/-- Stable ascending insertion into a sorted list of strings. -/
def insertSorted (s : String) : List String → List String
  | [] => [s]
  | x :: xs => if s ≤ x then s :: x :: xs else x :: insertSorted s xs

/-- Python `sorted()` on a list of strings (ascending, stable). -/
def sortStrings : List String → List String
  | [] => []
  | x :: xs => insertSorted x (sortStrings xs)

/-- Python `", ".join(items)`. -/
def joinCommaSpace : List String → String
  | [] => ""
  | [s] => s
  | s :: rest => s ++ ", " ++ joinCommaSpace rest

def invalidTomlMsg (path err : String) : String :=
  "invalid TOML in config file " ++ path ++ ": " ++ err

def invalidFormatMsg (path : String) : String :=
  "invalid config format in " ++ path ++ ": expected a table."

def unknownKeysMsg (path : String) (unknown : List String) : String :=
  "unknown config key(s) in " ++ path ++ ": " ++ joinCommaSpace (sortStrings unknown)

def invalidTimeShapeMsg (path : String) : String :=
  "invalid \x27time\x27 in " ++ path ++ ": expected an array with 3 values (focus, rest, repeat)."

def invalidTimeItemMsg (path : String) : String :=
  "invalid \x27time\x27 in " ++ path ++ ": each value must be a string or integer."

def invalidCompactMsg (path : String) : String :=
  "invalid \x27compact\x27 in " ++ path ++ ": expected true or false."

def invalidNoBellMsg (path : String) : String :=
  "invalid \x27no_bell\x27 in " ++ path ++ ": expected true or false."

def invalidBarWidthMsg (path : String) : String :=
  "invalid \x27bar_width\x27 in " ++ path ++ ": expected an integer."

/-- `str(item)` for a TOML scalar accepted by `isinstance(item, (str, int))`.
Python `bool` is a subclass of `int`, so booleans are accepted and stringify
as `True` / `False`. -/
def pyScalarStr : Toml → Option String
  | .str s => some s
  | .int n => some (toString n)
  | .bool b => some (if b then "True" else "False")
  | _ => none

/-- `str(v)` for a TOML value accepted by `isinstance(v, int)` (which in
Python includes `bool`). -/
def pyIntStr : Toml → Option String
  | .int n => some (toString n)
  | .bool b => some (if b then "True" else "False")
  | _ => none

/-- Validation of the `time` key of the config file. -/
def validateTime (path : String) : Option Toml → Except PyErr (Option (List String))
  | none => Except.ok none
  | some (.arr items) =>
    if items.length ≠ 3 then Except.error (.valueError (invalidTimeShapeMsg path))
    else
      match items.mapM pyScalarStr with
      | some normalized => Except.ok (some normalized)
      | none => Except.error (.valueError (invalidTimeItemMsg path))
  | some _ => Except.error (.valueError (invalidTimeShapeMsg path))

/-- Validation of the `compact` key of the config file. -/
def validateCompact (path : String) : Option Toml → Except PyErr (Option Bool)
  | none => Except.ok none
  | some (.bool b) => Except.ok (some b)
  | some _ => Except.error (.valueError (invalidCompactMsg path))

/-- Validation of the `no_bell` key of the config file. -/
def validateNoBell (path : String) : Option Toml → Except PyErr (Option Bool)
  | none => Except.ok none
  | some (.bool b) => Except.ok (some b)
  | some _ => Except.error (.valueError (invalidNoBellMsg path))

/-- Validation of the `bar_width` key of the config file: an `int` (or
Python `bool`, which passes `isinstance(_, int)`) is stringified and fed to
`parse_bar_width`, whose `ArgumentTypeError` propagates out of `load_config`
unconverted. -/
def validateBarWidth (path : String) : Option Toml → Except PyErr (Option Nat)
  | none => Except.ok none
  | some v =>
    match pyIntStr v with
    | some s =>
      match parse_bar_width s with
      | Except.ok w => Except.ok (some w)
      | Except.error m => Except.error (.argTypeError m)
    | none => Except.error (.valueError (invalidBarWidthMsg path))

/-- `load_config` of pomdot.py over the abstract file state. -/
def load_config (path : String) (file : ConfigFile) : Except PyErr Config :=
  match file with
  | .absent => Except.ok ⟨none, none, none, none⟩
  | .malformed err => Except.error (.valueError (invalidTomlMsg path err))
  | .parsed data =>
    match data with
    | .table entries =>
      let unknown := (entries.map Prod.fst).filter (fun k => !(allowedKeys.contains k))
      if ¬ unknown.isEmpty then Except.error (.valueError (unknownKeysMsg path unknown))
      else
        match validateTime path (tomlLookup entries "time") with
        | Except.error e => Except.error e
        | Except.ok t =>
          match validateCompact path (tomlLookup entries "compact") with
          | Except.error e => Except.error e
          | Except.ok c =>
            match validateNoBell path (tomlLookup entries "no_bell") with
            | Except.error e => Except.error e
            | Except.ok n =>
              match validateBarWidth path (tomlLookup entries "bar_width") with
              | Except.error e => Except.error e
              | Except.ok b => Except.ok ⟨t, c, n, b⟩
    | _ => Except.error (.valueError (invalidFormatMsg path))

/-! ## Settings resolver (`resolve_with_source`, `main` lines 372-413) -/

/-- `resolve_with_source` of pomdot.py.  The Python function receives the
config dict and a key; here the per-key presence check `key in config`
becomes the `Option`-valued `config_value`.  The returned source tag is one
of the strings `"cli"`, `"config"`, `"default"`. -/
def resolve_with_source {α : Type} (cli_value : Option α) (config_value : Option α)
    (default_value : α) : α × String :=
  match cli_value with
  | some v => (v, "cli")
  | none =>
    match config_value with
    | some v => (v, "config")
    | none => (default_value, "default")

/-- The four resolved fields with their recorded sources. -/
structure ResolvedSettings where
  time : List String × String
  compact : Bool × String
  no_bell : Bool × String
  bar_width : Nat × String
  deriving DecidableEq

/-- Normal resolution (`main` lines 384-413): per-field
`resolve_with_source` over CLI value, config value and built-in default. -/
def resolveSettingsNormal (cliTime : Option (List String)) (cliCompact : Option Bool)
    (cliNoBell : Option Bool) (cliBarWidth : Option Nat) (config : Config) : ResolvedSettings :=
  ⟨resolve_with_source cliTime config.time BUILTIN_DEFAULT_TIME,
   resolve_with_source cliCompact config.compact BUILTIN_DEFAULT_COMPACT,
   resolve_with_source cliNoBell config.no_bell BUILTIN_DEFAULT_NO_BELL,
   resolve_with_source cliBarWidth config.bar_width DEFAULT_BAR_WIDTH⟩

/-- Save-config resolution (`main` lines 372-382): CLI value if supplied,
otherwise the built-in default; the loaded config is not consulted. -/
def resolveSettingsSave (cliTime : Option (List String)) (cliCompact : Option Bool)
    (cliNoBell : Option Bool) (cliBarWidth : Option Nat) : ResolvedSettings :=
  ⟨(cliTime.getD BUILTIN_DEFAULT_TIME, if cliTime.isSome then "cli" else "default"),
   (cliCompact.getD BUILTIN_DEFAULT_COMPACT, if cliCompact.isSome then "cli" else "default"),
   (cliNoBell.getD BUILTIN_DEFAULT_NO_BELL, if cliNoBell.isSome then "cli" else "default"),
   (cliBarWidth.getD DEFAULT_BAR_WIDTH, if cliBarWidth.isSome then "cli" else "default")⟩

/-! ## CLI surface (`normalize_time_values`, `main`) -/

def timeUsageMsg : String :=
  "-t/--time must be either three values (FOCUS REST REPEAT) or one comma-separated value (FOCUS,REST,REPEAT)"

/-- `normalize_time_values` of pomdot.py: `parser.error` becomes
`Except.error`. -/
def normalize_time_values (raw : Option (List String)) : Except String (Option (List String)) :=
  match raw with
  | none => Except.ok none
  | some rawTime =>
    let values :=
      if rawTime.length = 1 ∧ (rawTime.headD "").data.contains ',' then
        (splitComma (rawTime.headD "").data).map (fun g => (⟨pyStrip g⟩ : String))
      else
        rawTime.map pyStripS
    if values.length ≠ 3 ∨ values.any (fun v => v == "") then Except.error timeUsageMsg
    else Except.ok (some values)

/-- The argparse result: `None` markers for unsupplied options, plus the four
mode flags.  `bar_width` is already parsed by argparse (`type=parse_bar_width`). -/
structure Args where
  time : Option (List String)
  compact : Option Bool
  no_bell : Option Bool
  bar_width : Option Nat
  write_config : Bool
  status : Bool
  save_config : Bool
  force : Bool
  deriving DecidableEq

/-- The observable outcome of one `main` invocation.  `usageError` is
`parser.error` (message printed, exit status 2); `uncaughtError` is an
exception escaping `main` (traceback printed with the message, exit
status 1). -/
inductive MainOutcome where
  | usageError (msg : String)
  | uncaughtError (msg : String)
  | wroteConfig (path : String)
  | statusShown (settings : ResolvedSettings) (barWidth : Nat)
  | savedConfig (path : String) (timeValues : List String) (compact : Bool)
      (noBell : Bool) (barWidth : Nat)
  | runTimer (stages : List (String × Nat)) (compact : Bool) (noBell : Bool)
      (barWidth : Nat)
  deriving DecidableEq

/-- How an exception from `load_config` terminates `main`: a `ValueError` is
caught and turned into `parser.error`; an `ArgumentTypeError` is not caught
by `except ValueError` and escapes as an uncaught exception. -/
def pyErrOutcome : PyErr → MainOutcome
  | .valueError m => .usageError m
  | .argTypeError m => .uncaughtError m

/-- Process exit status of each outcome. -/
def exitCode : MainOutcome → Nat
  | .usageError _ => 2
  | .uncaughtError _ => 1
  | _ => 0

/-- Whether the outcome runs any countdown stage. -/
def beginsStages : MainOutcome → Bool
  | .runTimer _ _ _ _ => true
  | _ => false

/-- Whether the outcome writes a config file. -/
def writesFile : MainOutcome → Bool
  | .wroteConfig _ => true
  | .savedConfig _ _ _ _ _ => true
  | _ => false

def fileExists : ConfigFile → Bool
  | .absent => false
  | _ => true

def forceOnlyMsg : String := "--force can only be used with --write-config"

def writeSaveConflictMsg : String := "--write-config and --save-config cannot be used together"

def statusWriteConflictMsg : String := "--status and --write-config cannot be used together"

def statusSaveConflictMsg : String := "--status and --save-config cannot be used together"

def writeTimerConflictMsg : String := "--write-config cannot be combined with timer options"

def alreadyExistsMsg (path : String) : String := "config file already exists: " ++ path

/-- The validation block of `main` (lines 415-421): the first failing parse
of the resolved time triple and bar width, if any. -/
def firstParseError (tv : List String) (bw : Nat) : Option String :=
  match parse_duration (tv.getD 0 "") with
  | Except.error m => some m
  | Except.ok _ =>
    match parse_duration (tv.getD 1 "") with
    | Except.error m => some m
    | Except.ok _ =>
      match parse_repeat (tv.getD 2 "") with
      | Except.error m => some m
      | Except.ok _ =>
        match parse_bar_width (toString bw) with
        | Except.error m => some m
        | Except.ok _ => none

/-- The tail of `main` after a successful `load_config` (source lines
372-474): resolve the settings (save-config or normal mode), validate the
resolved values, then dispatch to status / save-config / run-timer. -/
def mainAfterLoad (args : Args) (path : String) (cliTime : Option (List String))
    (config : Config) : MainOutcome :=
  let r :=
    if args.save_config then
      resolveSettingsSave cliTime args.compact args.no_bell args.bar_width
    else
      resolveSettingsNormal cliTime args.compact args.no_bell args.bar_width config
  let tv := r.time.fst
  match parse_duration (tv.getD 0 "") with
  | Except.error m => .usageError m
  | Except.ok focus_seconds =>
    match parse_duration (tv.getD 1 "") with
    | Except.error m => .usageError m
    | Except.ok rest_seconds =>
      match parse_repeat (tv.getD 2 "") with
      | Except.error m => .usageError m
      | Except.ok repeats =>
        match parse_bar_width (toString r.bar_width.fst) with
        | Except.error m => .usageError m
        | Except.ok bw =>
          let normalized := [pyStripS (tv.getD 0 ""), pyStripS (tv.getD 1 ""),
                             pyStripS (tv.getD 2 "")]
          if args.status then .statusShown r bw
          else if args.save_config then
            .savedConfig path normalized r.compact.fst r.no_bell.fst bw
          else
            .runTimer (buildStages focus_seconds rest_seconds repeats.toNat)
              r.compact.fst r.no_bell.fst bw

/-- `main` of pomdot.py as a pure function from the parsed arguments, the
resolved config path and the abstract config-file state to an outcome. -/
def mainModel (args : Args) (path : String) (file : ConfigFile) : MainOutcome :=
  match normalize_time_values args.time with
  | Except.error m => .usageError m
  | Except.ok cliTime =>
    if args.force && !args.write_config then .usageError forceOnlyMsg
    else if args.write_config && args.save_config then .usageError writeSaveConflictMsg
    else if args.status && args.write_config then .usageError statusWriteConflictMsg
    else if args.status && args.save_config then .usageError statusSaveConflictMsg
    else if args.write_config then
      if cliTime.isSome || args.compact.isSome || args.no_bell.isSome || args.bar_width.isSome then
        .usageError writeTimerConflictMsg
      else if fileExists file && !args.force then .usageError (alreadyExistsMsg path)
      else .wroteConfig path
    else
      match load_config path file with
      | Except.error e => pyErrOutcome e
      | Except.ok config => mainAfterLoad args path cliTime config

/-! ## Helper lemmas -/

theorem resolve_with_source_cli {α : Type} (c cv : Option α) (d v : α) (h : c = some v) :
    resolve_with_source c cv d = (v, "cli") := by
  subst h; rfl

theorem resolve_with_source_config {α : Type} (cv : Option α) (d v : α) (h : cv = some v) :
    resolve_with_source none cv d = (v, "config") := by
  subst h; rfl

theorem resolve_with_source_default {α : Type} (d : α) :
    resolve_with_source (none : Option α) none d = (d, "default") := rfl

theorem pairFlatMap_length {α : Type} (g h : Nat → α) :
    ∀ (n s : Nat), ((List.range' s n).flatMap (fun j => [g j, h j])).length = 2 * n := by
  intro n
  induction n with
  | zero => intro s; rfl
  | succ m ih =>
    intro s
    rw [List.range'_succ, List.flatMap_cons, List.length_append, ih (s + 1)]
    simp only [List.length_cons, List.length_nil]
    omega

theorem pairFlatMap_getElem {α : Type} (g h : Nat → α) :
    ∀ (n s i : Nat), i < n →
      ((List.range' s n).flatMap (fun j => [g j, h j]))[2 * i]? = some (g (s + i)) ∧
      ((List.range' s n).flatMap (fun j => [g j, h j]))[2 * i + 1]? = some (h (s + i)) := by
  intro n
  induction n with
  | zero => intro s i hi; exact absurd hi (by omega)
  | succ m ih =>
    intro s i hi
    rw [List.range'_succ, List.flatMap_cons]
    simp only [List.cons_append, List.nil_append]
    cases i with
    | zero => simp
    | succ k =>
      have hk : k < m := by omega
      have ihk := ih (s + 1) k hk
      have hs : s + 1 + k = s + (k + 1) := by omega
      constructor
      · have e1 : 2 * (k + 1) = 2 * k + 1 + 1 := by omega
        rw [e1, List.getElem?_cons_succ, List.getElem?_cons_succ, ihk.1, hs]
      · have e2 : 2 * (k + 1) + 1 = 2 * k + 1 + 1 + 1 := by omega
        rw [e2, List.getElem?_cons_succ, List.getElem?_cons_succ, ihk.2, hs]

theorem mem_insertSorted (s k : String) (l : List String) :
    k ∈ insertSorted s l ↔ k = s ∨ k ∈ l := by
  induction l with
  | nil => simp [insertSorted]
  | cons x xs ih =>
    by_cases h : s ≤ x
    · simp [insertSorted, h]
    · simp only [insertSorted, if_neg h, List.mem_cons, ih]
      tauto

theorem mem_sortStrings (k : String) (l : List String) :
    k ∈ sortStrings l ↔ k ∈ l := by
  induction l with
  | nil => simp [sortStrings]
  | cons x xs ih =>
    simp only [sortStrings, mem_insertSorted, List.mem_cons, ih]

theorem takeWhile_append_all {p : Char → Bool} :
    ∀ (ds rest : List Char), (∀ c ∈ ds, p c = true) →
      (∀ c rest2, rest = c :: rest2 → p c = false) →
      (ds ++ rest).takeWhile p = ds ∧ (ds ++ rest).dropWhile p = rest := by
  intro ds
  induction ds with
  | nil =>
    intro rest h1 h2
    cases rest with
    | nil => exact ⟨rfl, rfl⟩
    | cons c r =>
      have hc := h2 c r rfl
      constructor
      · simp [List.takeWhile_cons, hc]
      · simp [List.dropWhile_cons, hc]
  | cons d ds2 ih =>
    intro rest h1 h2
    have hd : p d = true := h1 d (by simp)
    have ihh := ih rest (fun c hc => h1 c (by simp [hc])) h2
    constructor
    · simp [List.takeWhile_cons, hd, ihh.1]
    · simp [List.dropWhile_cons, hd, ihh.2]

theorem durationGroups_decomp (ds us : List Char) (hne : ds ≠ [])
    (hdig : ∀ c ∈ ds, c.isDigit = true)
    (hus : us = [] ∨ us = ['s'] ∨ us = ['m']) :
    durationGroups (ds ++ us) = some (ds, us.head?) := by
  have hrest : ∀ c rest2, us = c :: rest2 → c.isDigit = false := by
    rcases hus with h | h | h <;> subst h <;> intro c rest2 hc
    · exact absurd hc (by simp)
    · cases hc; decide
    · cases hc; decide
  obtain ⟨ht, hd⟩ := takeWhile_append_all ds us hdig hrest
  have hie : ds.isEmpty = false := by
    cases ds with
    | nil => exact absurd rfl hne
    | cons a l => rfl
  simp only [durationGroups, ht, hd, hie]
  rcases hus with h | h | h <;> subst h <;> rfl

theorem durationGroups_none_of_not_match (cs : List Char)
    (h : ¬ durMatches cs) : durationGroups cs = none := by
  cases hg : durationGroups cs with
  | none => rfl
  | some du =>
    exfalso
    apply h
    simp only [durationGroups] at hg
    by_cases hie : (cs.takeWhile Char.isDigit).isEmpty = true
    · rw [if_pos hie] at hg
      exact Option.noConfusion hg
    · rw [if_neg hie] at hg
      have hne : cs.takeWhile Char.isDigit ≠ [] := by
        intro hh
        rw [hh] at hie
        exact hie rfl
      have hdig : ∀ c ∈ cs.takeWhile Char.isDigit, c.isDigit = true :=
        fun c hc => List.mem_takeWhile_imp hc
      have hsplit : cs.takeWhile Char.isDigit ++ cs.dropWhile Char.isDigit = cs :=
        List.takeWhile_append_dropWhile _ _
      cases hr : cs.dropWhile Char.isDigit with
      | nil =>
        have hs2 : List.takeWhile Char.isDigit cs ++ [] = cs := by
          rw [← hr]
          exact hsplit
        exact ⟨_, [], hne, hdig, Or.inl rfl, hs2.symm⟩
      | cons c r2 =>
        cases r2 with
        | nil =>
          by_cases hc : c = 's' ∨ c = 'm'
          · have hs2 : List.takeWhile Char.isDigit cs ++ [c] = cs := by
              rw [← hr]
              exact hsplit
            refine ⟨_, [c], hne, hdig, ?_, hs2.symm⟩
            rcases hc with h2 | h2 <;> subst h2 <;> simp
          · rw [hr] at hg
            simp [hc] at hg
        | cons c2 r3 =>
          rw [hr] at hg
          simp at hg

theorem normalize_isSome (raw ct : Option (List String))
    (h : normalize_time_values raw = Except.ok ct) : ct.isSome = raw.isSome := by
  cases raw with
  | none =>
    simp only [normalize_time_values] at h
    have h' := Except.ok.inj h
    subst h'
    rfl
  | some rt =>
    simp only [normalize_time_values] at h
    split at h
    · split at h
      · exact absurd h (by simp)
      · have h' := Except.ok.inj h
        subst h'
        rfl
    · split at h
      · exact absurd h (by simp)
      · have h' := Except.ok.inj h
        subst h'
        rfl

theorem mainModel_run (args : Args) (path : String) (file : ConfigFile)
    (ct : Option (List String)) (hnorm : normalize_time_values args.time = Except.ok ct)
    (hforce : args.force = false) (hwrite : args.write_config = false)
    (hss : args.status = false ∨ args.save_config = false) :
    mainModel args path file =
      match load_config path file with
      | Except.error e => pyErrOutcome e
      | Except.ok config => mainAfterLoad args path ct config := by
  rcases hss with h | h <;> simp [mainModel, hnorm, hforce, hwrite, h]

theorem mainAfterLoad_save (args : Args) (path : String) (ct : Option (List String))
    (cfg : Config) (hsave : args.save_config = true) (hstatus : args.status = false)
    (t0 t1 t2 : String) (htv : ct.getD BUILTIN_DEFAULT_TIME = [t0, t1, t2])
    (F Rs : Nat) (rp : Int) (bw : Nat)
    (h0 : parse_duration t0 = Except.ok F) (h1 : parse_duration t1 = Except.ok Rs)
    (h2 : parse_repeat t2 = Except.ok rp)
    (h3 : parse_bar_width (toString (args.bar_width.getD DEFAULT_BAR_WIDTH)) = Except.ok bw) :
    mainAfterLoad args path ct cfg =
      MainOutcome.savedConfig path [pyStripS t0, pyStripS t1, pyStripS t2]
        (args.compact.getD BUILTIN_DEFAULT_COMPACT)
        (args.no_bell.getD BUILTIN_DEFAULT_NO_BELL) bw := by
  simp only [mainAfterLoad, hsave, if_true, resolveSettingsSave, htv]
  simp only [List.getD_cons_zero, List.getD_cons_succ]
  rw [h0, h1, h2, h3]
  simp [hstatus, hsave]

theorem mainAfterLoad_parse_error (args : Args) (path : String) (ct : Option (List String))
    (cfg : Config) (hsave : args.save_config = false) (m : String)
    (hfp : firstParseError
        (resolveSettingsNormal ct args.compact args.no_bell args.bar_width cfg).time.fst
        (resolveSettingsNormal ct args.compact args.no_bell args.bar_width cfg).bar_width.fst
        = some m) :
    mainAfterLoad args path ct cfg = MainOutcome.usageError m := by
  revert hfp
  simp only [mainAfterLoad, hsave, firstParseError]
  simp only [Bool.false_eq_true, if_false]
  cases hp0 : parse_duration
      ((resolveSettingsNormal ct args.compact args.no_bell args.bar_width cfg).time.fst.getD 0 "") with
  | error m0 => intro h; rw [← Option.some.inj h]
  | ok f =>
    cases hp1 : parse_duration
        ((resolveSettingsNormal ct args.compact args.no_bell args.bar_width cfg).time.fst.getD 1 "") with
    | error m1 => intro h; rw [← Option.some.inj h]
    | ok rs =>
      cases hp2 : parse_repeat
          ((resolveSettingsNormal ct args.compact args.no_bell args.bar_width cfg).time.fst.getD 2 "") with
      | error m2 => intro h; rw [← Option.some.inj h]
      | ok rp =>
        cases hp3 : parse_bar_width
            (toString (resolveSettingsNormal ct args.compact args.no_bell args.bar_width cfg).bar_width.fst) with
        | error m3 => intro h; rw [← Option.some.inj h]
        | ok bw => intro h; exact absurd h (by simp)

/-! ## Claim theorems -/

/-- Claim C1: in normal resolution each of the four fields independently
resolves to the CLI value (source `"cli"`) when one was supplied, otherwise
to the config-file value (source `"config"`) when that key is present,
otherwise to the built-in default (source `"default"`). -/
theorem resolver_precedence_spec (ct : Option (List String)) (cc cn : Option Bool)
    (cb : Option Nat) (cfg : Config) :
    ((∀ v, ct = some v → (resolveSettingsNormal ct cc cn cb cfg).time = (v, "cli")) ∧
     (ct = none → ∀ v, cfg.time = some v →
       (resolveSettingsNormal ct cc cn cb cfg).time = (v, "config")) ∧
     (ct = none → cfg.time = none →
       (resolveSettingsNormal ct cc cn cb cfg).time = (BUILTIN_DEFAULT_TIME, "default"))) ∧
    ((∀ v, cc = some v → (resolveSettingsNormal ct cc cn cb cfg).compact = (v, "cli")) ∧
     (cc = none → ∀ v, cfg.compact = some v →
       (resolveSettingsNormal ct cc cn cb cfg).compact = (v, "config")) ∧
     (cc = none → cfg.compact = none →
       (resolveSettingsNormal ct cc cn cb cfg).compact = (BUILTIN_DEFAULT_COMPACT, "default"))) ∧
    ((∀ v, cn = some v → (resolveSettingsNormal ct cc cn cb cfg).no_bell = (v, "cli")) ∧
     (cn = none → ∀ v, cfg.no_bell = some v →
       (resolveSettingsNormal ct cc cn cb cfg).no_bell = (v, "config")) ∧
     (cn = none → cfg.no_bell = none →
       (resolveSettingsNormal ct cc cn cb cfg).no_bell = (BUILTIN_DEFAULT_NO_BELL, "default"))) ∧
    ((∀ v, cb = some v → (resolveSettingsNormal ct cc cn cb cfg).bar_width = (v, "cli")) ∧
     (cb = none → ∀ v, cfg.bar_width = some v →
       (resolveSettingsNormal ct cc cn cb cfg).bar_width = (v, "config")) ∧
     (cb = none → cfg.bar_width = none →
       (resolveSettingsNormal ct cc cn cb cfg).bar_width = (DEFAULT_BAR_WIDTH, "default"))) := by
  refine ⟨⟨?_, ?_, ?_⟩, ⟨?_, ?_, ?_⟩, ⟨?_, ?_, ?_⟩, ⟨?_, ?_, ?_⟩⟩
  · intro v h
    simp only [resolveSettingsNormal]
    exact resolve_with_source_cli _ _ _ _ h
  · intro h1 v h2
    subst h1
    simp only [resolveSettingsNormal]
    exact resolve_with_source_config _ _ _ h2
  · intro h1 h2
    subst h1
    simp only [resolveSettingsNormal]
    rw [h2]
    rfl
  · intro v h
    simp only [resolveSettingsNormal]
    exact resolve_with_source_cli _ _ _ _ h
  · intro h1 v h2
    subst h1
    simp only [resolveSettingsNormal]
    exact resolve_with_source_config _ _ _ h2
  · intro h1 h2
    subst h1
    simp only [resolveSettingsNormal]
    rw [h2]
    rfl
  · intro v h
    simp only [resolveSettingsNormal]
    exact resolve_with_source_cli _ _ _ _ h
  · intro h1 v h2
    subst h1
    simp only [resolveSettingsNormal]
    exact resolve_with_source_config _ _ _ h2
  · intro h1 h2
    subst h1
    simp only [resolveSettingsNormal]
    rw [h2]
    rfl
  · intro v h
    simp only [resolveSettingsNormal]
    exact resolve_with_source_cli _ _ _ _ h
  · intro h1 v h2
    subst h1
    simp only [resolveSettingsNormal]
    exact resolve_with_source_config _ _ _ h2
  · intro h1 h2
    subst h1
    simp only [resolveSettingsNormal]
    rw [h2]
    rfl

/-- Witness for C1: CLI time wins with source `cli`, config bar width wins
with source `config`, compact falls back to the default with source
`default`, all in the same resolution. -/
theorem resolver_precedence_spec_witness :
    (resolveSettingsNormal (some ["10", "2", "1"]) none none none
      ⟨none, none, none, some 15⟩).time = (["10", "2", "1"], "cli") ∧
    (resolveSettingsNormal (some ["10", "2", "1"]) none none none
      ⟨none, none, none, some 15⟩).bar_width = (15, "config") ∧
    (resolveSettingsNormal (some ["10", "2", "1"]) none none none
      ⟨none, none, none, some 15⟩).compact = (false, "default") := by
  refine ⟨?_, ?_, ?_⟩
  · exact (resolver_precedence_spec (some ["10", "2", "1"]) none none none
      ⟨none, none, none, some 15⟩).1.1 _ rfl
  · exact (resolver_precedence_spec (some ["10", "2", "1"]) none none none
      ⟨none, none, none, some 15⟩).2.2.2.2.1 rfl _ rfl
  · exact (resolver_precedence_spec (some ["10", "2", "1"]) none none none
      ⟨none, none, none, some 15⟩).2.1.2.2 rfl rfl

/-- Counterexample for C2 as frozen: with exact real-number division the
filled count at `remaining = 29, total = 100, width = 100` would be
`floor(0.29 * 100) = 29`, but the program computes with IEEE binary64
doubles, where `(29/100)*100 = 28.999999999999996...`, so `build_bar`
fills 28. -/
theorem build_bar_counterexample :
    build_bar 29 100 100 ≠
      "[" ++ (⟨List.replicate ⌊((29 : ℚ) / 100) * 100⌋₊ '#'⟩ : String) ++
      (⟨List.replicate (100 - ⌊((29 : ℚ) / 100) * 100⌋₊) '-'⟩ : String) ++ "]" ∧
    build_bar 29 100 100 =
      "[" ++ (⟨List.replicate 28 '#'⟩ : String) ++
      (⟨List.replicate 72 '-'⟩ : String) ++ "]" := by
  have hq : ((29 : ℚ) / 100) * 100 = ((29 : Nat) : ℚ) := by norm_num
  rw [hq, Nat.floor_natCast]
  exact ⟨by decide, by decide⟩

/-- Claim C2 (amended): `build_bar` renders `[`, then `filled` hash marks
and `width - filled` dashes, then `]`, where `filled` is
`int((remaining/total) * width)` evaluated in IEEE binary64 double
arithmetic (correctly rounded quotient, int-to-float conversion and
product, round-to-nearest ties-to-even) — which can fall below the exact
real-number floor, e.g. 28 instead of 29 at `(29, 100, 100)`; when
`total = 0` the ratio is the integer 0 and the bar is fully empty; in
particular `build_bar 15 30 10 = "[#####-----]"`,
`build_bar 0 30 10 = "[----------]"`, and `build_bar 30 0 10` is fully
empty.  The finiteness hypotheses exclude the astronomical inputs on which
CPython raises `OverflowError` instead of rendering a bar. -/
theorem build_bar_float_spec (remaining total width : Nat) :
    (0 < total →
      roundRat remaining total ≠ PyFloat.inf →
      pyFloatOfNat width ≠ PyFloat.inf →
      pyMul (roundRat remaining total) (pyFloatOfNat width) ≠ PyFloat.inf →
      build_bar remaining total width =
        "[" ++ (⟨List.replicate
            (pyTruncToNat (pyMul (roundRat remaining total) (pyFloatOfNat width))) '#'⟩ : String) ++
        (⟨List.replicate (width -
            pyTruncToNat (pyMul (roundRat remaining total) (pyFloatOfNat width))) '-'⟩ : String) ++
        "]") ∧
    (total = 0 →
      build_bar remaining total width =
        "[" ++ (⟨List.replicate width '-'⟩ : String) ++ "]") ∧
    build_bar 15 30 10 = "[#####-----]" ∧
    build_bar 0 30 10 = "[----------]" ∧
    build_bar 30 0 10 = "[----------]" := by
  refine ⟨?_, ?_, by decide, by decide, by decide⟩
  · intro ht hfq hfw hfp
    have hne : total ≠ 0 := by omega
    simp only [build_bar, if_pos hne]
  · intro h0
    subst h0
    have hfill : pyTruncToNat (pyMul (PyFloat.finite 0 0) (pyFloatOfNat width)) = 0 := by
      cases hx : pyFloatOfNat width with
      | finite m e =>
        have hb : (2 : Nat) ^ (max 0 (-(0 + e))).toNat ≠ 0 := by positivity
        simp [pyMul, roundRat, pyTruncToNat, hb]
      | inf => rfl
    simp only [build_bar]
    rw [if_neg (by omega : ¬ (0 : Nat) ≠ 0), hfill, Nat.sub_zero]
    rfl

/-- Witness for C2 (amended): the positive-total case applied at
`remaining = 15`, `total = 30`, `width = 10`, where all values are finite
and the float pipeline yields 5 filled marks. -/
theorem build_bar_float_spec_witness :
    build_bar 15 30 10 =
      "[" ++ (⟨List.replicate
          (pyTruncToNat (pyMul (roundRat 15 30) (pyFloatOfNat 10))) '#'⟩ : String) ++
      (⟨List.replicate (10 -
          pyTruncToNat (pyMul (roundRat 15 30) (pyFloatOfNat 10))) '-'⟩ : String) ++ "]" :=
  (build_bar_float_spec 15 30 10).1 (by omega) (by decide) (by decide) (by decide)

/-- Claim C3: the stage sequence has exactly `2 * (repeat_count + 1)`
entries; entry `2*i` is the focus stage of cycle `i+1` with duration
`focus_seconds` and entry `2*i+1` the rest stage with duration
`rest_seconds`, labels embedding the 1-based cycle index and total cycle
count; `repeat_count = 0` gives exactly `Focus 1/1` then `Rest 1/1`. -/
theorem stage_sequence_spec (F R r : Nat) :
    (buildStages F R r).length = 2 * (r + 1) ∧
    (∀ i, i < r + 1 →
      (buildStages F R r)[2 * i]? =
        some ("Focus " ++ toString (i + 1) ++ "/" ++ toString (r + 1), F) ∧
      (buildStages F R r)[2 * i + 1]? =
        some ("Rest " ++ toString (i + 1) ++ "/" ++ toString (r + 1), R)) ∧
    buildStages F R 0 = [("Focus 1/1", F), ("Rest 1/1", R)] := by
  refine ⟨?_, ?_, ?_⟩
  · exact pairFlatMap_length
      (fun c => ("Focus " ++ toString c ++ "/" ++ toString (r + 1), F))
      (fun c => ("Rest " ++ toString c ++ "/" ++ toString (r + 1), R)) (r + 1) 1
  · intro i hi
    have h := pairFlatMap_getElem
      (fun c => ("Focus " ++ toString c ++ "/" ++ toString (r + 1), F))
      (fun c => ("Rest " ++ toString c ++ "/" ++ toString (r + 1), R)) (r + 1) 1 i hi
    rw [Nat.add_comm 1 i] at h
    exact h
  · rfl

/-- Witness for C3: `repeat_count = 2` (three cycles), the second focus
stage. -/
theorem stage_sequence_spec_witness :
    (buildStages 1800 300 2)[2]? = some ("Focus 2/3", 1800) := by
  have h := ((stage_sequence_spec 1800 300 2).2.1 1 (by omega)).1
  exact h.trans (by decide)

/-- Claim C8: loading a parseable config table containing any unrecognized
key fails with the unknown-key `ValueError` whose message lists (sorted)
exactly the offending keys. -/
theorem unknown_key_spec (path : String) (entries : List (String × Toml))
    (hne : (entries.map Prod.fst).filter (fun k => !(allowedKeys.contains k)) ≠ []) :
    load_config path (.parsed (.table entries)) =
      Except.error (.valueError (unknownKeysMsg path
        ((entries.map Prod.fst).filter (fun k => !(allowedKeys.contains k))))) ∧
    ∀ k, k ∈ (entries.map Prod.fst).filter (fun k => !(allowedKeys.contains k)) ↔
      k ∈ sortStrings ((entries.map Prod.fst).filter (fun k => !(allowedKeys.contains k))) := by
  constructor
  · have hemp : ((entries.map Prod.fst).filter (fun k => !(allowedKeys.contains k))).isEmpty = false := by
      cases hl : (entries.map Prod.fst).filter (fun k => !(allowedKeys.contains k)) with
      | nil => exact absurd hl hne
      | cons a l => rfl
    simp only [load_config, hemp]
    rfl
  · intro k
    exact (mem_sortStrings k _).symm

/-- Witness for C8: a config file containing `foo = 1` fails listing `foo`. -/
theorem unknown_key_spec_witness :
    load_config "p" (.parsed (.table [("foo", Toml.int 1)])) =
      Except.error (.valueError "unknown config key(s) in p: foo") := by
  have h := (unknown_key_spec "p" [("foo", Toml.int 1)] (by decide)).1
  exact h.trans (by decide)

/-- Claim C9: `parse_repeat` never raises the `repeat count must be zero or
greater` error: every input either fails the digits check with the
invalid-format error or returns the (non-negative) numeric value of the
stripped digit string; zero is accepted. -/
theorem parse_repeat_spec (v : String) :
    parse_repeat v ≠ Except.error repeatNegativeMsg ∧
    ((pyStrip v.data ≠ [] ∧ (pyStrip v.data).all Char.isDigit = true) →
      parse_repeat v = Except.ok ((natOfDigits (pyStrip v.data) : Int)) ∧
      0 ≤ ((natOfDigits (pyStrip v.data) : Int))) ∧
    (¬ (pyStrip v.data ≠ [] ∧ (pyStrip v.data).all Char.isDigit = true) →
      parse_repeat v = Except.error repeatInvalidMsg) := by
  have hnn : ¬ ((natOfDigits (pyStrip v.data) : Int) < 0) :=
    not_lt.mpr (Int.natCast_nonneg _)
  by_cases h : (pyStrip v.data).isEmpty = true ∨ ¬ ((pyStrip v.data).all Char.isDigit = true)
  · have hout : parse_repeat v = Except.error repeatInvalidMsg := by
      simp only [parse_repeat, if_pos h]
    refine ⟨?_, ?_, fun _ => hout⟩
    · rw [hout]; intro hc
      exact absurd (Except.error.inj hc) (by decide)
    · intro hgood
      exact absurd h (by
        push_neg
        exact ⟨by simpa [List.isEmpty_iff] using hgood.1, hgood.2⟩)
  · have hout : parse_repeat v = Except.ok ((natOfDigits (pyStrip v.data) : Int)) := by
      simp only [parse_repeat, if_neg h, if_neg hnn]
    refine ⟨?_, fun _ => ⟨hout, Int.natCast_nonneg _⟩, ?_⟩
    · rw [hout]; intro hc; exact Except.noConfusion hc
    · intro hbad
      push_neg at h
      exact absurd ⟨by simpa [List.isEmpty_iff] using h.1, h.2⟩ hbad

/-- Claim C4: on input whose stripped, lowercased form is digits plus an
optional `s`/`m` suffix, `parse_duration` returns amount seconds for `s` and
amount times 60 for `m` or no suffix when the amount is positive, fails with
the non-positive error when the amount is zero, and fails with the
invalid-format error whenever the stripped, lowercased form does not match
`^\d+[sm]?$`. -/
theorem parse_duration_spec :
    (∀ (v : String) (ds us : List Char),
      ds ≠ [] → (∀ c ∈ ds, c.isDigit = true) → (us = [] ∨ us = ['s'] ∨ us = ['m']) →
      pyLower (pyStrip v.data) = ds ++ us → 0 < natOfDigits ds →
      parse_duration v =
        Except.ok (if us = ['s'] then natOfDigits ds else natOfDigits ds * 60)) ∧
    (∀ (v : String) (ds us : List Char),
      ds ≠ [] → (∀ c ∈ ds, c.isDigit = true) → (us = [] ∨ us = ['s'] ∨ us = ['m']) →
      pyLower (pyStrip v.data) = ds ++ us → natOfDigits ds = 0 →
      parse_duration v = Except.error timeNonPositiveMsg) ∧
    (∀ v : String, ¬ durMatches (pyLower (pyStrip v.data)) →
      parse_duration v = Except.error timeInvalidMsg) := by
  refine ⟨?_, ?_, ?_⟩
  · intro v ds us hne hdig hus heq hpos
    have hg := durationGroups_decomp ds us hne hdig hus
    simp only [parse_duration, heq, hg]
    rw [if_neg (by omega : ¬ natOfDigits ds ≤ 0)]
    rcases hus with h | h | h <;> subst h <;> rfl
  · intro v ds us hne hdig hus heq h0
    have hg := durationGroups_decomp ds us hne hdig hus
    simp only [parse_duration, heq, hg]
    rw [if_pos (by omega : natOfDigits ds ≤ 0)]
  · intro v hnm
    simp only [parse_duration, durationGroups_none_of_not_match _ hnm]

/-- Witness for C4: `" 25M "` parses as 25 minutes, i.e. 1500 seconds. -/
theorem parse_duration_spec_witness : parse_duration " 25M " = Except.ok 1500 := by
  have h := parse_duration_spec.1 " 25M " ['2', '5'] ['m'] (by decide) (by decide)
    (Or.inr (Or.inr rfl)) (by decide) (by decide)
  exact h.trans (by decide)

/-- Claim C5: in save-config mode every field resolves to the CLI value when
supplied and otherwise to the built-in default (the loaded config is never a
fallback — the outcome is the same for any loadable config file, and `time`
falls back to the built-in default even if the config defines it); recorded
provenance is only ever `cli` or `default`; the resolved, stripped settings
are written to the config path via save. -/
theorem save_config_spec (args : Args) (path : String) (file : ConfigFile)
    (ct : Option (List String))
    (hsave : args.save_config = true) (hwrite : args.write_config = false)
    (hforce : args.force = false) (hstatus : args.status = false)
    (hnorm : normalize_time_values args.time = Except.ok ct)
    (cfg : Config) (hload : load_config path file = Except.ok cfg)
    (t0 t1 t2 : String) (htv : ct.getD BUILTIN_DEFAULT_TIME = [t0, t1, t2])
    (F Rs : Nat) (rp : Int) (bw : Nat)
    (h0 : parse_duration t0 = Except.ok F) (h1 : parse_duration t1 = Except.ok Rs)
    (h2 : parse_repeat t2 = Except.ok rp)
    (h3 : parse_bar_width (toString (args.bar_width.getD DEFAULT_BAR_WIDTH)) = Except.ok bw) :
    mainModel args path file =
      MainOutcome.savedConfig path [pyStripS t0, pyStripS t1, pyStripS t2]
        (args.compact.getD BUILTIN_DEFAULT_COMPACT)
        (args.no_bell.getD BUILTIN_DEFAULT_NO_BELL) bw ∧
    (∀ v, ct = some v →
      (resolveSettingsSave ct args.compact args.no_bell args.bar_width).time = (v, "cli")) ∧
    (ct = none →
      (resolveSettingsSave ct args.compact args.no_bell args.bar_width).time =
        (BUILTIN_DEFAULT_TIME, "default")) ∧
    (∀ v, args.compact = some v →
      (resolveSettingsSave ct args.compact args.no_bell args.bar_width).compact = (v, "cli")) ∧
    (args.compact = none →
      (resolveSettingsSave ct args.compact args.no_bell args.bar_width).compact =
        (BUILTIN_DEFAULT_COMPACT, "default")) ∧
    (∀ v, args.no_bell = some v →
      (resolveSettingsSave ct args.compact args.no_bell args.bar_width).no_bell = (v, "cli")) ∧
    (args.no_bell = none →
      (resolveSettingsSave ct args.compact args.no_bell args.bar_width).no_bell =
        (BUILTIN_DEFAULT_NO_BELL, "default")) ∧
    (∀ v, args.bar_width = some v →
      (resolveSettingsSave ct args.compact args.no_bell args.bar_width).bar_width = (v, "cli")) ∧
    (args.bar_width = none →
      (resolveSettingsSave ct args.compact args.no_bell args.bar_width).bar_width =
        (DEFAULT_BAR_WIDTH, "default")) ∧
    (∀ file2 cfg2, load_config path file2 = Except.ok cfg2 →
      mainModel args path file2 = mainModel args path file) := by
  have hmain : ∀ f c, load_config path f = Except.ok c →
      mainModel args path f =
        MainOutcome.savedConfig path [pyStripS t0, pyStripS t1, pyStripS t2]
          (args.compact.getD BUILTIN_DEFAULT_COMPACT)
          (args.no_bell.getD BUILTIN_DEFAULT_NO_BELL) bw := by
    intro f c hl
    rw [mainModel_run args path f ct hnorm hforce hwrite (Or.inl hstatus), hl]
    exact mainAfterLoad_save args path ct c hsave hstatus t0 t1 t2 htv F Rs rp bw h0 h1 h2 h3
  refine ⟨hmain file cfg hload, ?_, ?_, ?_, ?_, ?_, ?_, ?_, ?_, ?_⟩
  · intro v h; subst h; simp [resolveSettingsSave]
  · intro h; subst h; simp [resolveSettingsSave]
  · intro v h; simp [resolveSettingsSave, h]
  · intro h; simp [resolveSettingsSave, h]
  · intro v h; simp [resolveSettingsSave, h]
  · intro h; simp [resolveSettingsSave, h]
  · intro v h; simp [resolveSettingsSave, h]
  · intro h; simp [resolveSettingsSave, h]
  · intro f2 c2 hl2
    rw [hmain f2 c2 hl2, hmain file cfg hload]

/-- Witness for C5: `--save-config --time 1s 2s 0 --no-bell` over an absent
config file saves the CLI time and bell with the default compact and bar
width. -/
theorem save_config_spec_witness :
    mainModel ⟨some ["1s", "2s", "0"], none, some true, none, false, false, true, false⟩ "p"
      ConfigFile.absent = MainOutcome.savedConfig "p" ["1s", "2s", "0"] false true 30 := by
  have h := (save_config_spec
    ⟨some ["1s", "2s", "0"], none, some true, none, false, false, true, false⟩
    "p" ConfigFile.absent (some ["1s", "2s", "0"]) rfl rfl rfl rfl (by decide)
    ⟨none, none, none, none⟩ (by decide) "1s" "2s" "0" (by decide) 1 2 0 30
    (by decide) (by decide) (by decide) (by decide)).1
  exact h.trans (by decide)

/-- Claim C6: every value-parsing and config-file error — the time-shape
usage error, any error from `load_config` (including the bar-width
`ArgumentTypeError` that propagates out of `load_config` uncaught, e.g. a
config `bar_width = 5` below the minimum of 10), and any parse failure of
the resolved values — terminates the run before any countdown stage with a
non-zero exit status, carrying the error message. -/
theorem errors_abort_spec :
    (∀ (args : Args) (path : String) (file : ConfigFile) (m : String),
      normalize_time_values args.time = Except.error m →
      mainModel args path file = MainOutcome.usageError m ∧
      beginsStages (mainModel args path file) = false ∧
      exitCode (mainModel args path file) ≠ 0) ∧
    (∀ (args : Args) (path : String) (file : ConfigFile) (ct : Option (List String)) (e : PyErr),
      args.write_config = false → args.force = false →
      (args.status = false ∨ args.save_config = false) →
      normalize_time_values args.time = Except.ok ct →
      load_config path file = Except.error e →
      mainModel args path file = pyErrOutcome e ∧
      beginsStages (mainModel args path file) = false ∧
      exitCode (mainModel args path file) ≠ 0) ∧
    (∀ path : String,
      load_config path (.parsed (.table [("bar_width", Toml.int 5)])) =
        Except.error (.argTypeError barWidthMinMsg)) ∧
    (∀ (args : Args) (path : String) (file : ConfigFile) (ct : Option (List String))
        (cfg : Config) (m : String),
      args.write_config = false → args.force = false →
      args.status = false → args.save_config = false →
      normalize_time_values args.time = Except.ok ct →
      load_config path file = Except.ok cfg →
      firstParseError
        (resolveSettingsNormal ct args.compact args.no_bell args.bar_width cfg).time.fst
        (resolveSettingsNormal ct args.compact args.no_bell args.bar_width cfg).bar_width.fst
        = some m →
      mainModel args path file = MainOutcome.usageError m ∧
      beginsStages (mainModel args path file) = false ∧
      exitCode (mainModel args path file) ≠ 0) := by
  refine ⟨?_, ?_, ?_, ?_⟩
  · intro args path file m h
    have hout : mainModel args path file = MainOutcome.usageError m := by
      simp [mainModel, h]
    exact ⟨hout, by rw [hout]; rfl, by rw [hout]; simp [exitCode]⟩
  · intro args path file ct e hw hf hss hnorm hload
    have hout : mainModel args path file = pyErrOutcome e := by
      rw [mainModel_run args path file ct hnorm hf hw hss, hload]
    refine ⟨hout, ?_, ?_⟩
    · rw [hout]; cases e <;> rfl
    · rw [hout]; cases e <;> simp [pyErrOutcome, exitCode]
  · intro path
    rfl
  · intro args path file ct cfg m hw hf hst hsv hnorm hload hfp
    have hout : mainModel args path file = MainOutcome.usageError m := by
      rw [mainModel_run args path file ct hnorm hf hw (Or.inl hst), hload]
      exact mainAfterLoad_parse_error args path ct cfg hsv m hfp
    exact ⟨hout, by rw [hout]; rfl, by rw [hout]; simp [exitCode]⟩

/-- Witness for C6: an unparseable config file aborts with the invalid-TOML
message before any stage. -/
theorem errors_abort_spec_witness :
    mainModel ⟨none, none, none, none, false, false, false, false⟩ "p"
      (ConfigFile.malformed "boom") =
      MainOutcome.usageError "invalid TOML in config file p: boom" := by
  have h := (errors_abort_spec.2.1 ⟨none, none, none, none, false, false, false, false⟩ "p"
    (ConfigFile.malformed "boom") none (PyErr.valueError "invalid TOML in config file p: boom")
    rfl rfl (Or.inl rfl) rfl (by decide)).1
  exact h.trans (by decide)

/-- Claim C7: each mutually exclusive flag combination fails with one of the
conflicting-flags usage errors, before any timer stage and before any config
file is written. -/
theorem conflicting_flags_spec (args : Args) (path : String) (file : ConfigFile)
    (ct : Option (List String)) (hnorm : normalize_time_values args.time = Except.ok ct)
    (hconf : (args.force = true ∧ args.write_config = false) ∨
             (args.write_config = true ∧ args.save_config = true) ∨
             (args.status = true ∧ args.write_config = true) ∨
             (args.status = true ∧ args.save_config = true) ∨
             (args.write_config = true ∧
               (args.time.isSome = true ∨ args.compact.isSome = true ∨
                args.no_bell.isSome = true ∨ args.bar_width.isSome = true))) :
    (mainModel args path file = MainOutcome.usageError forceOnlyMsg ∨
     mainModel args path file = MainOutcome.usageError writeSaveConflictMsg ∨
     mainModel args path file = MainOutcome.usageError statusWriteConflictMsg ∨
     mainModel args path file = MainOutcome.usageError statusSaveConflictMsg ∨
     mainModel args path file = MainOutcome.usageError writeTimerConflictMsg) ∧
    writesFile (mainModel args path file) = false ∧
    beginsStages (mainModel args path file) = false ∧
    exitCode (mainModel args path file) ≠ 0 := by
  have H : mainModel args path file = MainOutcome.usageError forceOnlyMsg ∨
      mainModel args path file = MainOutcome.usageError writeSaveConflictMsg ∨
      mainModel args path file = MainOutcome.usageError statusWriteConflictMsg ∨
      mainModel args path file = MainOutcome.usageError statusSaveConflictMsg ∨
      mainModel args path file = MainOutcome.usageError writeTimerConflictMsg := by
    rcases hconf with ⟨h1, h2⟩ | ⟨h1, h2⟩ | ⟨h1, h2⟩ | ⟨h1, h2⟩ | ⟨h1, h2⟩
    · exact Or.inl (by simp [mainModel, hnorm, h1, h2])
    · exact Or.inr (Or.inl (by simp [mainModel, hnorm, h1, h2]))
    · rcases Bool.eq_false_or_eq_true args.save_config with hs | hs
      · exact Or.inr (Or.inl (by simp [mainModel, hnorm, h1, h2, hs]))
      · exact Or.inr (Or.inr (Or.inl (by simp [mainModel, hnorm, h1, h2, hs])))
    · rcases Bool.eq_false_or_eq_true args.write_config with hw | hw
      · exact Or.inr (Or.inl (by simp [mainModel, hnorm, hw, h2]))
      · rcases Bool.eq_false_or_eq_true args.force with hf | hf
        · exact Or.inl (by simp [mainModel, hnorm, hf, hw])
        · exact Or.inr (Or.inr (Or.inr (Or.inl (by simp [mainModel, hnorm, h1, h2, hw, hf]))))
    · rcases Bool.eq_false_or_eq_true args.save_config with hs | hs
      · exact Or.inr (Or.inl (by simp [mainModel, hnorm, h1, hs]))
      · rcases Bool.eq_false_or_eq_true args.status with hst | hst
        · exact Or.inr (Or.inr (Or.inl (by simp [mainModel, hnorm, h1, hst, hs])))
        · refine Or.inr (Or.inr (Or.inr (Or.inr ?_)))
          have hct : ct.isSome = args.time.isSome := normalize_isSome _ _ hnorm
          rcases h2 with ho | ho | ho | ho
          · have hcts : ct.isSome = true := by rw [hct, ho]
            simp [mainModel, hnorm, h1, hs, hst, hcts]
          · simp [mainModel, hnorm, h1, hs, hst, ho]
          · simp [mainModel, hnorm, h1, hs, hst, ho]
          · simp [mainModel, hnorm, h1, hs, hst, ho]
  refine ⟨H, ?_, ?_, ?_⟩
  · rcases H with h | h | h | h | h <;> rw [h] <;> rfl
  · rcases H with h | h | h | h | h <;> rw [h] <;> rfl
  · rcases H with h | h | h | h | h <;> rw [h] <;> simp [exitCode]

/-- Witness for C7: `--force` without `--write-config`. -/
theorem conflicting_flags_spec_witness :
    (mainModel ⟨none, none, none, none, false, false, false, true⟩ "p" ConfigFile.absent =
        MainOutcome.usageError forceOnlyMsg ∨
     mainModel ⟨none, none, none, none, false, false, false, true⟩ "p" ConfigFile.absent =
        MainOutcome.usageError writeSaveConflictMsg ∨
     mainModel ⟨none, none, none, none, false, false, false, true⟩ "p" ConfigFile.absent =
        MainOutcome.usageError statusWriteConflictMsg ∨
     mainModel ⟨none, none, none, none, false, false, false, true⟩ "p" ConfigFile.absent =
        MainOutcome.usageError statusSaveConflictMsg ∨
     mainModel ⟨none, none, none, none, false, false, false, true⟩ "p" ConfigFile.absent =
        MainOutcome.usageError writeTimerConflictMsg) ∧
    writesFile (mainModel ⟨none, none, none, none, false, false, false, true⟩ "p"
      ConfigFile.absent) = false ∧
    beginsStages (mainModel ⟨none, none, none, none, false, false, false, true⟩ "p"
      ConfigFile.absent) = false ∧
    exitCode (mainModel ⟨none, none, none, none, false, false, false, true⟩ "p"
      ConfigFile.absent) ≠ 0 :=
  conflicting_flags_spec ⟨none, none, none, none, false, false, false, true⟩ "p"
    ConfigFile.absent none rfl (Or.inl ⟨rfl, rfl⟩)

/-- Claim C10: in save-config mode the config file is loaded and validated
before saving: any load error aborts the run with a non-zero status, no
stages run and nothing is written. -/
theorem save_validates_first_spec (args : Args) (path : String) (file : ConfigFile)
    (ct : Option (List String)) (e : PyErr)
    (hsave : args.save_config = true) (hwrite : args.write_config = false)
    (hforce : args.force = false) (hstatus : args.status = false)
    (hnorm : normalize_time_values args.time = Except.ok ct)
    (hload : load_config path file = Except.error e) :
    mainModel args path file = pyErrOutcome e ∧
    writesFile (mainModel args path file) = false ∧
    beginsStages (mainModel args path file) = false ∧
    exitCode (mainModel args path file) ≠ 0 := by
  have hout : mainModel args path file = pyErrOutcome e := by
    rw [mainModel_run args path file ct hnorm hforce hwrite (Or.inl hstatus), hload]
  refine ⟨hout, ?_, ?_, ?_⟩ <;> rw [hout] <;> cases e <;>
    simp [pyErrOutcome, writesFile, beginsStages, exitCode]

/-- Witness for C10: `--save-config` over a malformed config file aborts
without saving. -/
theorem save_validates_first_spec_witness :
    mainModel ⟨none, none, none, none, false, false, true, false⟩ "p"
      (ConfigFile.malformed "boom") =
      MainOutcome.usageError "invalid TOML in config file p: boom" := by
  have h := (save_validates_first_spec ⟨none, none, none, none, false, false, true, false⟩ "p"
    (ConfigFile.malformed "boom") none (PyErr.valueError "invalid TOML in config file p: boom")
    rfl rfl rfl rfl rfl (by decide)).1
  exact h.trans (by decide)

/-- Witness for C9: zero is accepted with value 0. -/
theorem parse_repeat_spec_witness : parse_repeat "0" = Except.ok 0 := by
  have h := ((parse_repeat_spec "0").2.1 (by decide)).1
  exact h.trans (by decide)

end Pomdot
